import Mathlib

/-!
Shallow embedding of the vroom NVMe driver core (prp.rs, queues.rs,
queue_pairs.rs, nvme.rs) and proofs about the queue protocol, the PRP
builder, request validation, register bounds checks and queue-pair
creation.

Machine integers are modelled as naturals; where the Rust source can
underflow or wrap on usize or u16 subtraction (release profile wraps),
the wrap is made explicit through usizeSub and u16Sub.  External
capabilities (the Allocator, the MMIO memory cells, the device) are
parameters of the model; allocator calls that merely obtain fresh DMA
pages are modelled through an address oracle.
-/

namespace Vroom

/-- Two to the 64, the modulus of the usize arithmetic of the target. -/
def USIZE : Nat := 2 ^ 64

/-- Two to the 16, the modulus of u16 arithmetic. -/
def U16 : Nat := 2 ^ 16

/-- Wrapping usize subtraction, as compiled in the release profile:
for a < 2 to the 64, usizeSub a b = a - b when b ≤ a, and wraps otherwise. -/
def usizeSub (a b : Nat) : Nat := (a + (USIZE - b % USIZE)) % USIZE

/-- Wrapping u16 subtraction. -/
def u16Sub (a b : Nat) : Nat := (a + (U16 - b % U16)) % U16

/-- Rust Nat::div_ceil on naturals (for a positive divisor). -/
def divCeil (a b : Nat) : Nat := (a + b - 1) / b

/-- The error type of the driver (error.rs), restricted to the variants the
embedded operations can produce.  Payload-carrying allocator causes are
collapsed to payload-free constructors. -/
inductive Error where
  | translateVirtualToPhysical
  | virtualAddressIsNotDwordAligned (addr : Nat)
  | virtualAddressIsNotPageAligned (addr : Nat)
  | bufferLengthBiggerThanMaximumTransferSize (len mts : Nat)
  | bufferLengthNotAMultipleOfNamespaceBlockSize (len bs : Nat)
  | ioCompletionQueueFailure (status : Nat)
  | completionQueueCompletionFailure
  | submissionQueueFull
  | memoryAccessOutOfBounds
  | numberOfQueueEntriesLessThanTwo (n : Nat)
  | numberOfQueueEntriesMoreThanMaximum (n maxn : Nat)
  | namespaceDoesNotExist (id : Nat)
  | maximumNumberOfQueuesReached
deriving DecidableEq, Repr

/-- NVMe completion queue entry (queues.rs, CompletionQueueEntry).
All fields are little-endian machine words, modelled as naturals. -/
structure CompletionQueueEntry where
  commandSpecific : Nat
  sqHead : Nat
  sqId : Nat
  commandId : Nat
  status : Nat
deriving DecidableEq, Repr

instance : Inhabited CompletionQueueEntry := ⟨⟨0, 0, 0, 0, 0⟩⟩

/-- Completion queue state (queues.rs, CompletionQueue).  The backing DMA
array is the list commands; the device writes it, the driver reads it. -/
structure CompletionQueue where
  commands : List CompletionQueueEntry
  head : Nat
  phase : Bool
  len : Nat
deriving DecidableEq, Repr

namespace CompletionQueue

/-- CompletionQueue::new: head 0, expected phase true, capacity the length
of the freshly allocated backing array (whose initial contents are
whatever the environment provides). -/
def new (entries : List CompletionQueueEntry) : CompletionQueue :=
  { commands := entries, head := 0, phase := true, len := entries.length }

/-- CompletionQueue::complete.  Reads the slot at head; when the phase bit
of the entry equals the expected phase it advances head modulo len,
toggling the expected phase when head wraps to 0, and returns
(new head, entry, previous head).  Otherwise it fails and the state is
returned unchanged (the Rust method leaves self untouched on the error
path).  Indexing commands[head] asserts head < len in the source; the
getD default is never reached under that invariant. -/
def complete (q : CompletionQueue) :
    Except Error (Nat × CompletionQueueEntry × Nat) × CompletionQueue :=
  let entry := q.commands.getD q.head default
  if (entry.status % 2 == 1) = q.phase then
    let prev := q.head
    let head1 := (q.head + 1) % q.len
    (Except.ok (head1, entry, prev),
     { q with head := head1, phase := if head1 = 0 then !q.phase else q.phase })
  else
    (Except.error Error.completionQueueCompletionFailure, q)

/-- CompletionQueue::complete_spin modelled with explicit fuel: the Rust
loop retries complete forever; none means the fuel ran out while the loop
was still spinning. -/
def completeSpinFuel : Nat → CompletionQueue →
    Option ((Nat × CompletionQueueEntry × Nat) × CompletionQueue)
  | 0, _ => none
  | fuel + 1, q =>
    match q.complete with
    | (Except.ok r, q1) => some (r, q1)
    | (Except.error _, q1) => completeSpinFuel fuel q1

/-- CompletionQueue::complete_n: advances head by commands - 1 (wrapping
usize subtraction), toggles the phase when the unreduced head reaches len,
reduces head modulo len, then spins on complete; the returned previous
head is the one from before the adjustment. -/
def completeNFuel (fuel commands : Nat) (q : CompletionQueue) :
    Option ((Nat × CompletionQueueEntry × Nat) × CompletionQueue) :=
  let prev := q.head
  let h := q.head + usizeSub commands 1
  let q1 : CompletionQueue :=
    { q with head := h % q.len, phase := if h ≥ q.len then !q.phase else q.phase }
  (completeSpinFuel fuel q1).map (fun r => ((r.1.1, r.1.2.1, prev), r.2))

end CompletionQueue

/-- Trace observer for repeated successful completions: iterates
CompletionQueue.complete n times, counting how often the expected phase
toggled; none when some call fails. -/
def completeN : Nat → CompletionQueue → Option (CompletionQueue × Nat)
  | 0, q => some (q, 0)
  | n + 1, q =>
    match q.complete with
    | (Except.ok _, q1) =>
      match completeN n q1 with
      | some (qf, t) => some (qf, (if q1.phase = q.phase then 0 else 1) + t)
      | none => none
    | (Except.error _, _) => none

/-- NVMe submission queue entry (cmd.rs, NvmeCommand): 64 bytes of
little-endian fields, modelled as naturals. -/
structure NvmeCommand where
  opcode : Nat
  flags : Nat
  commandId : Nat
  namespaceId : Nat
  metadataPointer : Nat
  dataPointer0 : Nat
  dataPointer1 : Nat
  cdw10 : Nat
  cdw11 : Nat
  cdw12 : Nat
  cdw13 : Nat
  cdw14 : Nat
  cdw15 : Nat
deriving DecidableEq, Repr

instance : Inhabited NvmeCommand := ⟨⟨0, 0, 0, 0, 0, 0, 0, 0, 0, 0, 0, 0, 0⟩⟩

namespace NvmeCommand

/-- NvmeCommand::io_read (cmd.rs): opcode 2, slba split into cdw10/cdw11,
0-based block count in cdw12, PRP1/PRP2 in the data pointer. -/
def ioRead (commandId namespaceId lba numberOfBlocks prp1 prp2 : Nat) : NvmeCommand :=
  { opcode := 2, flags := 0, commandId := commandId, namespaceId := namespaceId,
    metadataPointer := 0, dataPointer0 := prp1, dataPointer1 := prp2,
    cdw10 := lba % 2 ^ 32, cdw11 := lba / 2 ^ 32 % 2 ^ 32,
    cdw12 := numberOfBlocks, cdw13 := 0, cdw14 := 0, cdw15 := 0 }

/-- NvmeCommand::io_write (cmd.rs): opcode 1, otherwise as ioRead. -/
def ioWrite (commandId namespaceId lba numberOfBlocks prp1 prp2 : Nat) : NvmeCommand :=
  { opcode := 1, flags := 0, commandId := commandId, namespaceId := namespaceId,
    metadataPointer := 0, dataPointer0 := prp1, dataPointer1 := prp2,
    cdw10 := lba % 2 ^ 32, cdw11 := lba / 2 ^ 32 % 2 ^ 32,
    cdw12 := numberOfBlocks, cdw13 := 0, cdw14 := 0, cdw15 := 0 }

end NvmeCommand

/-- Submission queue state (queues.rs, SubmissionQueue). -/
structure SubmissionQueue where
  commands : List NvmeCommand
  head : Nat
  tail : Nat
  len : Nat
deriving DecidableEq, Repr

namespace SubmissionQueue

/-- SubmissionQueue::is_empty: head equals tail. -/
def is_empty (q : SubmissionQueue) : Bool := q.head == q.tail

/-- SubmissionQueue::is_full: head equals tail + 1 modulo len. -/
def is_full (q : SubmissionQueue) : Bool := q.head == (q.tail + 1) % q.len

/-- SubmissionQueue::submit: write the entry at tail, advance tail modulo
len, return the new tail together with the new state. -/
def submit (q : SubmissionQueue) (entry : NvmeCommand) : Nat × SubmissionQueue :=
  let q1 := { q with commands := q.commands.set q.tail entry, tail := (q.tail + 1) % q.len }
  (q1.tail, q1)

end SubmissionQueue

/-- The environment of the PRP builder: the translate capability of the
Allocator trait (which can fail), and the physical addresses of the DMA
pages that successive Dma::allocate calls for PRP list pages return.  A
freshly mapped DMA page reads as zeros. -/
structure PrpAllocator where
  translate : Nat → Option Nat
  listPagePhys : Nat → Nat

/-- One allocated PRP list page (a Dma of page_size / 8 u64 entries). -/
structure PrpList where
  physicalAddress : Nat
  entries : List Nat
deriving DecidableEq, Repr

instance : Inhabited PrpList := ⟨⟨0, []⟩⟩

/-- prp.rs, PrpContainer. -/
inductive PrpContainer where
  | one (prp1 : Nat)
  | two (prp1 prp2 : Nat)
  | multiple (prp1 : Nat) (lists : List PrpList)
deriving DecidableEq, Repr

namespace PrpContainer

/-- PrpContainer::prp_1. -/
def prp1 : PrpContainer → Nat
  | one p => p
  | two p _ => p
  | multiple p _ => p

/-- PrpContainer::prp_2: none for One, the second address for Two, the
physical address of the first list page for Multiple. -/
def prp2 : PrpContainer → Option Nat
  | one _ => none
  | two _ p => some p
  | multiple _ lists => some (lists.getD 0 default).physicalAddress

end PrpContainer

/-- The entries of the i-th PRP list page as prp.rs fills them: for
j < entriesPerPage - 1 the code stores
prp_2.add((i * (entriesPerPage - 1) + j) * pageSize), and since prp_2 has
pointer type mut u64, the pointer add scales that byte-intended offset by
8 once more; the final slot chains to the next list page except on the
last page, where it keeps its initial zero. -/
def prpListEntries (prp2 pageSize entriesPerPage listCount : Nat)
    (A : PrpAllocator) (i : Nat) : List Nat :=
  (List.range (entriesPerPage - 1)).map
    (fun j => prp2 + 8 * ((i * (entriesPerPage - 1) + j) * pageSize))
  ++ [if i < listCount - 1 then A.listPagePhys (i + 1) else 0]

/-- prp.rs, allocate.  The buffer is (virt, phys, size); page_size is the
device page size.  Mirrors the source: the dword check masks with 0b0111,
the span is div_ceil of (virt AND (page_size - 1)) + size by page_size,
span 1 returns One, an unaligned virt then fails, span 2 returns Two with
translate(virt + page_size), and otherwise div_ceil(span - 1,
entries_per_page - 1) list pages are allocated and filled.  The
subtraction span - 1 is wrapping usize subtraction as in the compiled
source. -/
def prpAllocate (virt phys size pageSize : Nat) (A : PrpAllocator) :
    Except Error PrpContainer :=
  if virt &&& 7 ≠ 0 then
    Except.error (Error.virtualAddressIsNotDwordAligned virt)
  else
    let prp1 := phys
    let needed := divCeil ((virt &&& (pageSize - 1)) + size) pageSize
    if needed = 1 then Except.ok (PrpContainer.one prp1)
    else if virt &&& (pageSize - 1) ≠ 0 then
      Except.error (Error.virtualAddressIsNotPageAligned virt)
    else
      match A.translate (virt + pageSize) with
      | none => Except.error Error.translateVirtualToPhysical
      | some prp2 =>
        if needed = 2 then Except.ok (PrpContainer.two prp1 prp2)
        else
          let entriesPerPage := pageSize / 8
          let listCount := divCeil (usizeSub needed 1) (usizeSub entriesPerPage 1)
          Except.ok (PrpContainer.multiple prp1
            ((List.range listCount).map
              (fun i => ⟨A.listPagePhys i,
                         prpListEntries prp2 pageSize entriesPerPage listCount A i⟩)))

/-- queue_pairs.rs, IoQueuePair::complete_io, with fuel for the inner
spin loop.  The assert n > 0 (a panic) and an exhausted spin are both
modelled as none.  On a reaped completion the CQ head doorbell is written
with the new head (recorded in the returned list), the submission head is
set from the sq_head field of the entry, and a non-zero status (bits 15:1)
fails with IoCompletionQueueFailure.  Returns
(result, new submission head, new CQ state, CQ doorbell writes). -/
def completeIoFuel (fuel n : Nat) (cq : CompletionQueue) :
    Option (Except Error Nat × Nat × CompletionQueue × List Nat) :=
  if n = 0 then none
  else
    match cq.completeNFuel fuel n with
    | none => none
    | some ((tail, entry, _), cq1) =>
      let status := entry.status / 2
      if status ≠ 0 then
        some (Except.error (Error.ioCompletionQueueFailure status), entry.sqHead, cq1, [tail])
      else
        some (Except.ok entry.sqHead, entry.sqHead, cq1, [tail])

/-- The state of an I/O queue pair that the read and write paths touch
(queue_pairs.rs, IoQueuePair).  The device address and doorbell stride
only determine where the doorbell stores land; the stores themselves are
recorded in the result of the model. -/
structure IoQueuePairState where
  submission : SubmissionQueue
  completion : CompletionQueue
  pageSize : Nat
  maximumTransferSize : Nat
  namespaceId : Nat
  blockSize : Nat
deriving Repr

/-- A doorbell store: true tags the SQ tail doorbell, false the CQ head
doorbell; the second component is the 32-bit value stored. -/
abbrev DoorbellWrite := Bool × Nat

/-- queue_pairs.rs, IoQueuePair::write, for a page-aligned buffer at
(virt, phys) of size bytes.  Returns none when the source would not
return normally (remainder by a zero block size panics; the completion
spin loop may never finish); otherwise some (result, final state, list of
doorbell stores in order).  PRP deallocation releases memory to the
allocator and is modelled as succeeding. -/
def ioWriteModel (fuel : Nat) (s : IoQueuePairState) (virt phys size lba : Nat)
    (A : PrpAllocator) :
    Option (Except Error Unit × IoQueuePairState × List DoorbellWrite) :=
  if size > s.maximumTransferSize then
    some (Except.error (Error.bufferLengthBiggerThanMaximumTransferSize
            size s.maximumTransferSize), s, [])
  else if s.blockSize = 0 then none
  else if size % s.blockSize ≠ 0 then
    some (Except.error (Error.bufferLengthNotAMultipleOfNamespaceBlockSize
            size s.blockSize), s, [])
  else
    match prpAllocate virt phys size s.pageSize A with
    | Except.error e => some (Except.error e, s, [])
    | Except.ok container =>
      let prp1 := container.prp1
      let prp2 := (container.prp2).getD 0
      let blocks := size / s.blockSize
      let entry := NvmeCommand.ioWrite (s.submission.tail % U16) s.namespaceId lba
        (u16Sub (blocks % U16) 1) prp1 prp2
      let (tail, sq1) := s.submission.submit entry
      match completeIoFuel fuel 1 s.completion with
      | none => none
      | some (res, sqHead, cq1, cqDb) =>
        let s1 := { s with submission := { sq1 with head := sqHead }, completion := cq1 }
        let db := (true, tail) :: cqDb.map (fun v => (false, v))
        match res with
        | Except.error e => some (Except.error e, s1, db)
        | Except.ok v =>
          some (Except.ok (), { s1 with submission := { s1.submission with head := v } }, db)

/-- queue_pairs.rs, IoQueuePair::read; identical to the write path except
for the command built (opcode 2 instead of 1). -/
def ioReadModel (fuel : Nat) (s : IoQueuePairState) (virt phys size lba : Nat)
    (A : PrpAllocator) :
    Option (Except Error Unit × IoQueuePairState × List DoorbellWrite) :=
  if size > s.maximumTransferSize then
    some (Except.error (Error.bufferLengthBiggerThanMaximumTransferSize
            size s.maximumTransferSize), s, [])
  else if s.blockSize = 0 then none
  else if size % s.blockSize ≠ 0 then
    some (Except.error (Error.bufferLengthNotAMultipleOfNamespaceBlockSize
            size s.blockSize), s, [])
  else
    match prpAllocate virt phys size s.pageSize A with
    | Except.error e => some (Except.error e, s, [])
    | Except.ok container =>
      let prp1 := container.prp1
      let prp2 := (container.prp2).getD 0
      let blocks := size / s.blockSize
      let entry := NvmeCommand.ioRead (s.submission.tail % U16) s.namespaceId lba
        (u16Sub (blocks % U16) 1) prp1 prp2
      let (tail, sq1) := s.submission.submit entry
      match completeIoFuel fuel 1 s.completion with
      | none => none
      | some (res, sqHead, cq1, cqDb) =>
        let s1 := { s with submission := { sq1 with head := sqHead }, completion := cq1 }
        let db := (true, tail) :: cqDb.map (fun v => (false, v))
        match res with
        | Except.error e => some (Except.error e, s1, db)
        | Except.ok v =>
          some (Except.ok (), { s1 with submission := { s1.submission with head := v } }, db)

/-- nvme.rs, get_register_32 bounds check: the volatile read happens
exactly when the check register > length - 4 (wrapping usize subtraction
in the compiled source) does not fire; ok marks the access being
performed. -/
def getRegister32 (register length : Nat) : Except Error Unit :=
  if register > usizeSub length 4 then Except.error Error.memoryAccessOutOfBounds
  else Except.ok ()

/-- nvme.rs, get_register_64 bounds check. -/
def getRegister64 (register length : Nat) : Except Error Unit :=
  if register > usizeSub length 8 then Except.error Error.memoryAccessOutOfBounds
  else Except.ok ()

/-- nvme.rs, set_register_32 bounds check. -/
def setRegister32 (register length : Nat) : Except Error Unit :=
  if register > usizeSub length 4 then Except.error Error.memoryAccessOutOfBounds
  else Except.ok ()

/-- nvme.rs, set_register_64 bounds check. -/
def setRegister64 (register length : Nat) : Except Error Unit :=
  if register > usizeSub length 8 then Except.error Error.memoryAccessOutOfBounds
  else Except.ok ()

/-- The for i in 1..=maximum loop of create_io_queue_pair, searching for
the lowest id not yet live; remaining counts the iterations left. -/
def lowestFreeFrom (ids : List Nat) : Nat → Nat → Option Nat
  | 0, _ => none
  | remaining + 1, i =>
    if ids.contains i then lowestFreeFrom ids remaining (i + 1) else some i

/-- The part of the NvmeDevice state that create_io_queue_pair consults
(nvme.rs): two controller limits, the namespace catalog (as the list of
its keys) and the live queue-pair id list. -/
structure DeviceState where
  maximumQueueEntriesSupported : Nat
  maximumNumberOfIoQueuePairs : Nat
  namespaceIds : List Nat
  ioQueuePairIds : List Nat
deriving DecidableEq, Repr

/-- nvme.rs, NvmeDevice::create_io_queue_pair: validates
2 ≤ n ≤ maximum_queue_entries_supported, looks the namespace up, picks
the lowest free queue id in [1, maximum_number_of_io_queue_pairs], and
pushes the id onto the live list.  Queue allocation and the two admin
commands sent to the device are external interaction modelled as
succeeding; the doorbell-offset assertion concerns only the MMIO window
size. -/
def createIoQueuePair (s : DeviceState) (namespaceId n : Nat) :
    Except Error (Nat × DeviceState) :=
  if n < 2 then Except.error (Error.numberOfQueueEntriesLessThanTwo n)
  else if n > s.maximumQueueEntriesSupported then
    Except.error (Error.numberOfQueueEntriesMoreThanMaximum n s.maximumQueueEntriesSupported)
  else if ¬ s.namespaceIds.contains namespaceId then
    Except.error (Error.namespaceDoesNotExist namespaceId)
  else
    match lowestFreeFrom s.ioQueuePairIds s.maximumNumberOfIoQueuePairs 1 with
    | none => Except.error Error.maximumNumberOfQueuesReached
    | some q => Except.ok (q, { s with ioQueuePairIds := s.ioQueuePairIds ++ [q] })

/-! Helper lemmas shared by several claims. -/

/-- Wrapping usize subtraction agrees with truncated subtraction below the
modulus. -/
lemma usizeSub_eq_sub (a b : Nat) (hb : b ≤ a) (ha : a < USIZE) :
    usizeSub a b = a - b := by
  have e : USIZE = 18446744073709551616 := by norm_num [USIZE]
  simp only [usizeSub, e] at *
  omega

lemma usizeSub_one_one : usizeSub 1 1 = 0 := by
  have e : USIZE = 18446744073709551616 := by norm_num [USIZE]
  simp only [usizeSub, e]

/-- complete on a slot whose phase bit disagrees with the expected phase
fails and leaves the queue unchanged. -/
lemma complete_fail (q : CompletionQueue)
    (hm : ¬ ((q.commands.getD q.head default).status % 2 == 1) = q.phase) :
    q.complete = (Except.error Error.completionQueueCompletionFailure, q) := by
  simp only [CompletionQueue.complete]
  rw [if_neg hm]

/-- complete on a slot whose phase bit agrees with the expected phase
returns the entry and advances the state. -/
lemma complete_ok (q : CompletionQueue)
    (hp : ((q.commands.getD q.head default).status % 2 == 1) = q.phase) :
    q.complete = (Except.ok ((q.head + 1) % q.len, q.commands.getD q.head default, q.head),
      { q with
          head := (q.head + 1) % q.len,
          phase := if (q.head + 1) % q.len = 0 then !q.phase else q.phase }) := by
  simp only [CompletionQueue.complete]
  rw [if_pos hp]

/-- With nothing pending at head, the spin loop never produces a result,
whatever the fuel. -/
lemma completeSpinFuel_none (fuel : Nat) (q : CompletionQueue)
    (hm : ¬ ((q.commands.getD q.head default).status % 2 == 1) = q.phase) :
    CompletionQueue.completeSpinFuel fuel q = none := by
  induction fuel with
  | zero => rfl
  | succ n ih =>
    unfold CompletionQueue.completeSpinFuel
    rw [complete_fail q hm]
    exact ih

/-- complete_n with a single expected completion leaves the head
adjustment as the identity. -/
lemma completeNFuel_one (fuel : Nat) (q : CompletionQueue) (h : q.head < q.len) :
    q.completeNFuel fuel 1 =
      (CompletionQueue.completeSpinFuel fuel q).map
        (fun r => ((r.1.1, r.1.2.1, q.head), r.2)) := by
  have hq1 : ({ q with
      head := (q.head + usizeSub 1 1) % q.len,
      phase := if q.head + usizeSub 1 1 ≥ q.len then !q.phase else q.phase } :
      CompletionQueue) = q := by
    rw [usizeSub_one_one, Nat.add_zero, Nat.mod_eq_of_lt h, if_neg (Nat.not_le.mpr h)]
  simp only [CompletionQueue.completeNFuel, hq1]

/-- Iterating complete n times from a head below capacity: the head moves
to (head + n) mod len, the number of phase toggles is the number of wraps
(head + n) div len, and the final phase is the initial one flipped when
that count is odd. -/
lemma completeN_trace (n : Nat) : ∀ (q qf : CompletionQueue) (t : Nat),
    q.head < q.len → completeN n q = some (qf, t) →
    qf.len = q.len ∧ qf.head = (q.head + n) % q.len ∧ t = (q.head + n) / q.len ∧
    qf.phase = (if t % 2 = 1 then !q.phase else q.phase) := by
  induction n with
  | zero =>
    intro q qf t h hc
    simp only [completeN, Option.some.injEq, Prod.mk.injEq] at hc
    obtain ⟨rfl, rfl⟩ := hc
    refine ⟨rfl, ?_, ?_, ?_⟩
    · rw [Nat.add_zero, Nat.mod_eq_of_lt h]
    · rw [Nat.add_zero, Nat.div_eq_of_lt h]
    · norm_num
  | succ n ih =>
    intro q qf t h hc
    have hL : 0 < q.len := Nat.lt_of_le_of_lt (Nat.zero_le _) h
    by_cases hp : ((q.commands.getD q.head default).status % 2 == 1) = q.phase
    · rw [show completeN (n + 1) q =
          (match q.complete with
           | (Except.ok _, q1) =>
             match completeN n q1 with
             | some (qf, t) => some (qf, (if q1.phase = q.phase then 0 else 1) + t)
             | none => none
           | (Except.error _, _) => none) from rfl, complete_ok q hp] at hc
      dsimp only at hc
      generalize hQ : ({ q with
          head := (q.head + 1) % q.len,
          phase := if (q.head + 1) % q.len = 0 then !q.phase else q.phase } :
          CompletionQueue) = q1 at hc
      have hlen1 : q1.len = q.len := by rw [← hQ]
      have hhead1 : q1.head = (q.head + 1) % q.len := by rw [← hQ]
      have hphase1 : q1.phase = if (q.head + 1) % q.len = 0 then !q.phase else q.phase := by
        rw [← hQ]
      have h1 : q1.head < q1.len := by
        rw [hhead1, hlen1]
        exact Nat.mod_lt _ hL
      cases hcn : completeN n q1 with
      | none =>
        rw [hcn] at hc
        simp at hc
      | some p =>
        obtain ⟨qf1, t1⟩ := p
        rw [hcn] at hc
        dsimp only at hc
        simp only [Option.some.injEq, Prod.mk.injEq] at hc
        obtain ⟨rfl, rfl⟩ := hc
        obtain ⟨e1, e2, e3, e4⟩ := ih q1 qf1 t1 h1 hcn
        have E2 : qf1.head = ((q.head + 1) % q.len + n) % q.len := by
          rw [e2, hhead1, hlen1]
        have E3 : t1 = ((q.head + 1) % q.len + n) / q.len := by
          rw [e3, hhead1, hlen1]
        have hne : ¬ ((!q.phase) = q.phase) := by cases q.phase <;> simp
        rcases Nat.lt_or_ge (q.head + 1) q.len with hlt | hge
        · -- no wrap on this step
          have hm : (q.head + 1) % q.len = q.head + 1 := Nat.mod_eq_of_lt hlt
          refine ⟨e1.trans hlen1, ?_, ?_, ?_⟩
          · rw [E2, hm]
            congr 1
            omega
          · rw [hm, if_neg (Nat.succ_ne_zero q.head), if_pos rfl, Nat.zero_add, E3, hm]
            congr 1
            omega
          · rw [e4, hphase1, hm, if_neg (Nat.succ_ne_zero q.head), if_pos rfl,
              Nat.zero_add]
        · -- the step wrapped: head + 1 = len
          have hEq : q.head + 1 = q.len := Nat.le_antisymm h hge
          have hm : (q.head + 1) % q.len = 0 := by rw [hEq, Nat.mod_self]
          have hsum : q.head + (n + 1) = n + q.len := by omega
          refine ⟨e1.trans hlen1, ?_, ?_, ?_⟩
          · rw [E2, hm, Nat.zero_add, hsum, Nat.add_mod_right]
          · rw [hm, if_pos rfl, if_neg hne, E3, hm, Nat.zero_add, hsum,
              Nat.add_div_right _ hL]
            omega
          · rw [e4, E3, hphase1, hm, if_pos rfl, if_neg hne, Nat.zero_add]
            rcases Nat.mod_two_eq_zero_or_one (n / q.len) with h2 | h2
            · rw [if_neg (by omega), if_pos (by omega)]
            · rw [if_pos h2, if_neg (by omega), Bool.not_not]
    · rw [show completeN (n + 1) q =
          (match q.complete with
           | (Except.ok _, q1) =>
             match completeN n q1 with
             | some (qf, t) => some (qf, (if q1.phase = q.phase then 0 else 1) + t)
             | none => none
           | (Except.error _, _) => none) from rfl, complete_fail q hp] at hc
      dsimp only at hc
      simp at hc

/-- The id search loop finds nothing exactly when every id in the scanned
range is already live. -/
lemma lowestFreeFrom_none (ids : List Nat) :
    ∀ k i, lowestFreeFrom ids k i = none ↔ ∀ j, i ≤ j → j < i + k → ids.contains j = true := by
  intro k
  induction k with
  | zero =>
    intro i
    constructor
    · intro _ j h1 h2
      omega
    · intro _
      rfl
  | succ k ih =>
    intro i
    unfold lowestFreeFrom
    by_cases hc : ids.contains i = true
    · rw [if_pos hc, ih (i + 1)]
      constructor
      · intro hall j h1 h2
        rcases Nat.eq_or_lt_of_le h1 with rfl | hlt
        · exact hc
        · exact hall j hlt (by omega)
      · intro hall j h1 h2
        exact hall j (by omega) (by omega)
    · rw [if_neg hc]
      constructor
      · intro hfalse
        exact absurd hfalse (by simp)
      · intro hall
        exact absurd (hall i (Nat.le_refl i) (by omega)) hc

/-- When the id search loop returns an id, that id lies in the scanned
range, is not live, and every smaller id in the range is live. -/
lemma lowestFreeFrom_some (ids : List Nat) :
    ∀ k i q, lowestFreeFrom ids k i = some q →
      i ≤ q ∧ q < i + k ∧ ¬ ids.contains q = true ∧
      ∀ j, i ≤ j → j < q → ids.contains j = true := by
  intro k
  induction k with
  | zero =>
    intro i q hq
    exact absurd hq (by simp [lowestFreeFrom])
  | succ k ih =>
    intro i q hq
    unfold lowestFreeFrom at hq
    by_cases hc : ids.contains i = true
    · rw [if_pos hc] at hq
      obtain ⟨h1, h2, h3, h4⟩ := ih (i + 1) q hq
      refine ⟨by omega, by omega, h3, ?_⟩
      intro j hj1 hj2
      rcases Nat.eq_or_lt_of_le hj1 with rfl | hlt
      · exact hc
      · exact h4 j hlt hj2
    · rw [if_neg hc] at hq
      obtain rfl : i = q := by
        simpa using hq
      refine ⟨Nat.le_refl i, by omega, hc, ?_⟩
      intro j hj1 hj2
      omega

/-- The PRP builder only ever fails with one of the two alignment errors
or a translation failure. -/
lemma prpAllocate_error_shapes (virt phys size pageSize : Nat) (A : PrpAllocator)
    (e : Error) (h : prpAllocate virt phys size pageSize A = Except.error e) :
    e = Error.virtualAddressIsNotDwordAligned virt ∨
    e = Error.virtualAddressIsNotPageAligned virt ∨
    e = Error.translateVirtualToPhysical := by
  unfold prpAllocate at h
  by_cases h7 : virt &&& 7 ≠ 0
  · rw [if_pos h7] at h
    injection h with h1
    exact Or.inl h1.symm
  · rw [if_neg h7] at h
    dsimp only at h
    by_cases hn1 : divCeil ((virt &&& (pageSize - 1)) + size) pageSize = 1
    · rw [if_pos hn1] at h
      simp at h
    · rw [if_neg hn1] at h
      by_cases hpa : virt &&& (pageSize - 1) ≠ 0
      · rw [if_pos hpa] at h
        injection h with h1
        exact Or.inr (Or.inl h1.symm)
      · rw [if_neg hpa] at h
        cases ht : A.translate (virt + pageSize) with
        | none =>
          rw [ht] at h
          dsimp only at h
          injection h with h1
          exact Or.inr (Or.inr h1.symm)
        | some p2 =>
          rw [ht] at h
          dsimp only at h
          by_cases hn2 : divCeil ((virt &&& (pageSize - 1)) + size) pageSize = 2
          · rw [if_pos hn2] at h
            simp at h
          · rw [if_neg hn2] at h
            simp at h

/-- complete_io either reports the completion status failure of the
reaped entry or succeeds; it never produces any other error. -/
lemma completeIoFuel_result_shapes (fuel n : Nat) (cq : CompletionQueue)
    (r : Except Error Nat) (sqh : Nat) (cq1 : CompletionQueue) (db : List Nat)
    (h : completeIoFuel fuel n cq = some (r, sqh, cq1, db)) :
    (∃ st, r = Except.error (Error.ioCompletionQueueFailure st)) ∨ ∃ v, r = Except.ok v := by
  unfold completeIoFuel at h
  by_cases hn : n = 0
  · rw [if_pos hn] at h
    simp at h
  · rw [if_neg hn] at h
    cases hcn : cq.completeNFuel fuel n with
    | none =>
      rw [hcn] at h
      simp at h
    | some p =>
      obtain ⟨⟨tl, entry, prev⟩, cq2⟩ := p
      rw [hcn] at h
      dsimp only at h
      by_cases hst : entry.status / 2 ≠ 0
      · rw [if_pos hst] at h
        simp only [Option.some.injEq, Prod.mk.injEq] at h
        obtain ⟨h1, -⟩ := h
        exact Or.inl ⟨entry.status / 2, h1.symm⟩
      · rw [if_neg hst] at h
        simp only [Option.some.injEq, Prod.mk.injEq] at h
        obtain ⟨h1, -⟩ := h
        exact Or.inr ⟨entry.sqHead, h1.symm⟩

/-! The claim theorems. -/

/-- Claim C10: immediately after CompletionQueue::new the expected phase
is true and head is 0, so on a freshly allocated queue whose memory is
all zeros complete() fails with CompletionQueueCompletionFailure and
leaves the queue unchanged; nothing is reported until the device stores
an entry whose phase bit is 1. -/
theorem C10_fresh_completion_queue_reports_nothing (n : Nat) (h : 0 < n) :
    (CompletionQueue.new (List.replicate n default)).phase = true ∧
    (CompletionQueue.new (List.replicate n default)).head = 0 ∧
    (CompletionQueue.new (List.replicate n default)).complete =
      (Except.error Error.completionQueueCompletionFailure,
       CompletionQueue.new (List.replicate n default)) := by
  refine ⟨rfl, rfl, ?_⟩
  cases n with
  | zero => exact absurd h (Nat.lt_irrefl 0)
  | succ m =>
    apply complete_fail
    simp [CompletionQueue.new, List.replicate_succ,
      (show (default : CompletionQueueEntry).status = 0 from rfl)]

/-- Witness for C10 at a three-entry zeroed queue. -/
theorem C10_fresh_completion_queue_reports_nothing_witness :
    (0 < 3) ∧
    ((CompletionQueue.new (List.replicate 3 default)).phase = true ∧
     (CompletionQueue.new (List.replicate 3 default)).head = 0 ∧
     (CompletionQueue.new (List.replicate 3 default)).complete =
       (Except.error Error.completionQueueCompletionFailure,
        CompletionQueue.new (List.replicate 3 default))) :=
  ⟨by decide, C10_fresh_completion_queue_reports_nothing 3 (by decide)⟩

/-- Claim C2 (code evaluated at the failing input): the address 4 is
dword (4-byte) aligned, yet allocate rejects it with
VirtualAddressIsNotDwordAligned, because the source masks with 0b0111
and thereby tests 8-byte alignment. -/
theorem C2_dword_aligned_address_rejected :
    prpAllocate 4 4 8 4096 ⟨fun v => some v, fun _ => 0⟩ =
      Except.error (Error.virtualAddressIsNotDwordAligned 4) ∧ (4 : Nat) % 4 = 0 :=
  ⟨rfl, rfl⟩

/-- Claim C4 (code evaluated at the failing input): on a window of length
0 the bounds check of the 32-bit getter at offset 0x14 and of the 64-bit
setter at offset 0x28 both pass, because length - width underflows and
wraps, and the out-of-bounds volatile access is performed even though
offset + width exceeds the length. -/
theorem C4_register_bounds_check_underflows :
    getRegister32 20 0 = Except.ok () ∧ setRegister64 40 0 = Except.ok () ∧
    ¬ (20 + 4 ≤ 0) ∧ ¬ (40 + 8 ≤ 0) :=
  ⟨rfl, rfl, by omega, by omega⟩

/-- Claim C1 (code evaluated at the failing input): for a page-aligned
buffer of 3 pages at virtual address 0 under an identity translation
with page size 4096, the second payload entry of the single PRP list
page holds 36864 = translate(virt + P) + 8 * P instead of
translate(virt + 2 * P) = 8192: the pointer add on a mut u64 scales the
intended byte offset by 8.  The list page moreover carries 512 slots of
which 511 are filled as payload entries although the span only needs 2,
so the number of addresses encoded exceeds the span. -/
theorem C1_prp_list_entries_skip_pages :
    (match prpAllocate 0 0 12288 4096 ⟨fun v => some v, fun i => 2 ^ 20 + i * 4096⟩ with
     | Except.ok (PrpContainer.multiple _ lists) =>
       some ((lists.getD 0 default).entries.getD 1 0, (lists.getD 0 default).entries.length)
     | _ => none) = some (36864, 512) ∧ (36864 : Nat) ≠ 8192 :=
  ⟨by set_option maxRecDepth 20000 in rfl, by omega⟩

/-- Claim C3, counterexample: on a freshly zeroed three-entry completion
queue, where no completion with the expected phase is pending, the
complete_io path does not return CompletionQueueCompletionFailure after
its first (nor its hundredth) poll: the inner complete_n keeps spinning
and no result is produced. -/
theorem C3_complete_io_does_not_return_after_one_poll :
    completeIoFuel 100 1 (CompletionQueue.new (List.replicate 3 default)) = none :=
  rfl

/-- Claim C3 as amended: complete_io(1) delegates to complete_n, which
busy-waits in complete_spin; when the entry at head does not carry the
expected phase the call never returns, whatever the fuel, and in
particular never surfaces CompletionQueueCompletionFailure. -/
theorem C3_complete_io_busy_waits (fuel : Nat) (q : CompletionQueue)
    (h : q.head < q.len)
    (hm : ¬ ((q.commands.getD q.head default).status % 2 == 1) = q.phase) :
    completeIoFuel fuel 1 q = none := by
  unfold completeIoFuel
  rw [if_neg (by omega : ¬ (1 = 0)), completeNFuel_one fuel q h,
    completeSpinFuel_none fuel q hm]
  rfl

/-- Witness for the amended C3 at a zeroed three-entry queue with fuel 7. -/
theorem C3_complete_io_busy_waits_witness :
    ((CompletionQueue.new (List.replicate 3 default)).head <
      (CompletionQueue.new (List.replicate 3 default)).len) ∧
    completeIoFuel 7 1 (CompletionQueue.new (List.replicate 3 default)) = none :=
  ⟨by decide, C3_complete_io_busy_waits 7 _ (by decide) (by decide)⟩

/-- Claim C5: complete reads the slot at head; on a phase match it
returns (new head, entry, previous head) with the head advanced modulo
the capacity and the expected phase toggled exactly when the new head
wrapped to 0; on a mismatch it fails with
CompletionQueueCompletionFailure leaving the state unchanged; and after
exactly len successful completions the expected phase has toggled
exactly once (and the head is back where it started). -/
theorem C5_completion_protocol (q : CompletionQueue) (h : q.head < q.len) :
    (((q.commands.getD q.head default).status % 2 == 1) = q.phase →
      q.complete = (Except.ok ((q.head + 1) % q.len, q.commands.getD q.head default, q.head),
        { q with
            head := (q.head + 1) % q.len,
            phase := if (q.head + 1) % q.len = 0 then !q.phase else q.phase })) ∧
    (¬ ((q.commands.getD q.head default).status % 2 == 1) = q.phase →
      q.complete = (Except.error Error.completionQueueCompletionFailure, q)) ∧
    (∀ qf t, completeN q.len q = some (qf, t) →
      t = 1 ∧ qf.phase = !q.phase ∧ qf.head = q.head) := by
  refine ⟨complete_ok q, complete_fail q, ?_⟩
  intro qf t hc
  obtain ⟨e1, e2, e3, e4⟩ := completeN_trace q.len q qf t h hc
  have hL : 0 < q.len := Nat.lt_of_le_of_lt (Nat.zero_le _) h
  have ht : t = 1 := by
    rw [e3, Nat.add_div_right _ hL, Nat.div_eq_of_lt h]
  refine ⟨ht, ?_, ?_⟩
  · rw [e4, ht]
    norm_num
  · rw [e2, Nat.add_mod_right, Nat.mod_eq_of_lt h]

/-- Witness for C5 on a three-entry queue whose entries all carry phase
bit 1: three successful completions toggle the phase once and return the
head to 0. -/
theorem C5_completion_protocol_witness :
    ((CompletionQueue.new (List.replicate 3 (⟨0, 0, 0, 0, 1⟩ : CompletionQueueEntry))).head <
      (CompletionQueue.new (List.replicate 3 (⟨0, 0, 0, 0, 1⟩ : CompletionQueueEntry))).len) ∧
    (1 = 1 ∧
      (⟨List.replicate 3 (⟨0, 0, 0, 0, 1⟩ : CompletionQueueEntry), 0, false, 3⟩ :
        CompletionQueue).phase =
        !(CompletionQueue.new (List.replicate 3 (⟨0, 0, 0, 0, 1⟩ : CompletionQueueEntry))).phase ∧
      (⟨List.replicate 3 (⟨0, 0, 0, 0, 1⟩ : CompletionQueueEntry), 0, false, 3⟩ :
        CompletionQueue).head =
        (CompletionQueue.new (List.replicate 3 (⟨0, 0, 0, 0, 1⟩ : CompletionQueueEntry))).head) :=
  ⟨by decide,
   (C5_completion_protocol _ (by decide)).2.2 _ 1 (by decide)⟩

/-- Claim C9, counterexample: in a one-slot ring with head = tail = 0
(and so 0 ≤ head, tail < N) the code reports the ring both empty and
full at once. -/
theorem C9_single_slot_ring_empty_and_full :
    ((⟨[default], 0, 0, 1⟩ : SubmissionQueue).is_empty = true) ∧
    ((⟨[default], 0, 0, 1⟩ : SubmissionQueue).is_full = true) ∧
    (⟨[default], 0, 0, 1⟩ : SubmissionQueue).head <
      (⟨[default], 0, 0, 1⟩ : SubmissionQueue).len ∧
    (⟨[default], 0, 0, 1⟩ : SubmissionQueue).tail <
      (⟨[default], 0, 0, 1⟩ : SubmissionQueue).len := by
  refine ⟨rfl, rfl, by decide, by decide⟩

/-- Claim C9 as amended: for every submission-queue state with
head, tail < N and N ≥ 2 (every queue the driver builds has at least two
entries), is_empty holds exactly when head = tail, is_full exactly when
head = (tail + 1) mod N, and the ring never reports both at once. -/
theorem C9_ring_empty_full_discipline (q : SubmissionQueue)
    (hh : q.head < q.len) (ht : q.tail < q.len) (h2 : 2 ≤ q.len) :
    (q.is_empty = true ↔ q.head = q.tail) ∧
    (q.is_full = true ↔ q.head = (q.tail + 1) % q.len) ∧
    ¬ (q.is_empty = true ∧ q.is_full = true) := by
  have he : q.is_empty = true ↔ q.head = q.tail := by
    simp [SubmissionQueue.is_empty]
  have hf : q.is_full = true ↔ q.head = (q.tail + 1) % q.len := by
    simp [SubmissionQueue.is_full]
  refine ⟨he, hf, ?_⟩
  rintro ⟨h3, h4⟩
  rw [he] at h3
  rw [hf] at h4
  rcases Nat.lt_or_ge (q.tail + 1) q.len with hlt | hge
  · rw [Nat.mod_eq_of_lt hlt] at h4
    omega
  · have hEq : q.tail + 1 = q.len := by omega
    rw [hEq, Nat.mod_self] at h4
    omega

/-- Witness for the amended C9 at a two-slot ring. -/
theorem C9_ring_empty_full_discipline_witness :
    ((⟨[default, default], 0, 0, 2⟩ : SubmissionQueue).is_empty = true ↔
      (⟨[default, default], 0, 0, 2⟩ : SubmissionQueue).head =
        (⟨[default, default], 0, 0, 2⟩ : SubmissionQueue).tail) ∧
    ((⟨[default, default], 0, 0, 2⟩ : SubmissionQueue).is_full = true ↔
      (⟨[default, default], 0, 0, 2⟩ : SubmissionQueue).head =
        ((⟨[default, default], 0, 0, 2⟩ : SubmissionQueue).tail + 1) %
          (⟨[default, default], 0, 0, 2⟩ : SubmissionQueue).len) ∧
    ¬ ((⟨[default, default], 0, 0, 2⟩ : SubmissionQueue).is_empty = true ∧
       (⟨[default, default], 0, 0, 2⟩ : SubmissionQueue).is_full = true) :=
  C9_ring_empty_full_discipline _ (by decide) (by decide) (by decide)

/-- Claim C8: create_io_queue_pair rejects n_entries < 2 with
NumberOfQueueEntriesLessThanTwo and n_entries above the supported
maximum with NumberOfQueueEntriesMoreThanMaximum (so n_entries = 2
passes the entry validation and maximum + 1 = MQES + 2 fails); past
validation and a successful namespace lookup it assigns the lowest
queue id in [1, maximum_number_of_io_queue_pairs] not in the live set,
appends it to the live set, and fails with MaximumNumberOfQueuesReached
exactly when every id in that range is live. -/
theorem C8_create_io_queue_pair_spec (s : DeviceState) (nsid n : Nat) :
    (n < 2 → createIoQueuePair s nsid n =
      Except.error (Error.numberOfQueueEntriesLessThanTwo n)) ∧
    (2 ≤ n → n > s.maximumQueueEntriesSupported →
      createIoQueuePair s nsid n =
        Except.error (Error.numberOfQueueEntriesMoreThanMaximum n
          s.maximumQueueEntriesSupported)) ∧
    (2 ≤ n → n ≤ s.maximumQueueEntriesSupported → s.namespaceIds.contains nsid = true →
      (((∀ j, 1 ≤ j → j ≤ s.maximumNumberOfIoQueuePairs →
          s.ioQueuePairIds.contains j = true) →
        createIoQueuePair s nsid n = Except.error Error.maximumNumberOfQueuesReached) ∧
      (∀ q s1, createIoQueuePair s nsid n = Except.ok (q, s1) →
        1 ≤ q ∧ q ≤ s.maximumNumberOfIoQueuePairs ∧
        ¬ s.ioQueuePairIds.contains q = true ∧
        (∀ j, 1 ≤ j → j < q → s.ioQueuePairIds.contains j = true) ∧
        s1.ioQueuePairIds = s.ioQueuePairIds ++ [q]))) := by
  refine ⟨?_, ?_, ?_⟩
  · intro h1
    unfold createIoQueuePair
    rw [if_pos h1]
  · intro h1 h2
    unfold createIoQueuePair
    rw [if_neg (by omega), if_pos h2]
  · intro h1 h2 h3
    constructor
    · intro hall
      unfold createIoQueuePair
      rw [if_neg (by omega), if_neg (by omega), if_neg (by rw [h3]; simp)]
      have hnone : lowestFreeFrom s.ioQueuePairIds s.maximumNumberOfIoQueuePairs 1 = none := by
        rw [lowestFreeFrom_none]
        intro j hj1 hj2
        exact hall j hj1 (by omega)
      rw [hnone]
    · intro q s1 hok
      unfold createIoQueuePair at hok
      rw [if_neg (by omega), if_neg (by omega), if_neg (by rw [h3]; simp)] at hok
      cases hfind : lowestFreeFrom s.ioQueuePairIds s.maximumNumberOfIoQueuePairs 1 with
      | none =>
        rw [hfind] at hok
        simp at hok
      | some q0 =>
        rw [hfind] at hok
        dsimp only at hok
        simp only [Except.ok.injEq, Prod.mk.injEq] at hok
        obtain ⟨rfl, rfl⟩ := hok
        obtain ⟨g1, g2, g3, g4⟩ := lowestFreeFrom_some s.ioQueuePairIds _ 1 q0 hfind
        exact ⟨g1, by omega, g3, g4, rfl⟩

/-- Witness for C8: on a device supporting 32 entries and 2 I/O queue
pairs with namespace 1 known and queue id 1 live, requesting 2 entries
yields queue id 2 and the live set [1, 2]. -/
theorem C8_create_io_queue_pair_spec_witness :
    (2 ≤ 2) ∧ ((2 : Nat) ≤ 32) ∧ (([1] : List Nat).contains 1 = true) ∧
    (1 ≤ 2 ∧ 2 ≤ (⟨32, 2, [1], [1]⟩ : DeviceState).maximumNumberOfIoQueuePairs ∧
     ¬ (⟨32, 2, [1], [1]⟩ : DeviceState).ioQueuePairIds.contains 2 = true ∧
     (⟨32, 2, [1], [1, 2]⟩ : DeviceState).ioQueuePairIds =
       (⟨32, 2, [1], [1]⟩ : DeviceState).ioQueuePairIds ++ [2]) := by
  refine ⟨by decide, by decide, by decide, ?_⟩
  have h := ((C8_create_io_queue_pair_spec ⟨32, 2, [1], [1]⟩ 1 2).2.2
    (by decide) (by decide) (by decide)).2 2 ⟨32, 2, [1], [1, 2]⟩ rfl
  exact ⟨h.1, h.2.1, h.2.2.1, h.2.2.2.2⟩

/-- Claim C7: with the device page size a power of two (NVMe allows
2 to the 12 up to 2 to the 28), a usize buffer size, and the dword check
passed, allocate computes the span as ceil((virt mod P + size) / P) and
returns One(phys) for span 1, demands page alignment for span at least
2, returns Two(prp1, translate(virt + P)) for span 2, and for larger
spans returns Multiple with exactly ceil((span - 1) / (P/8 - 1))
allocated list pages. -/
theorem C7_prp_span_dispatch (virt phys size pageSize k : Nat) (A : PrpAllocator)
    (hP : pageSize = 2 ^ k) (hk4 : 4 ≤ k) (hk28 : k ≤ 28) (hsize : size ≤ 2 ^ 63)
    (hd : virt % 8 = 0) :
    (divCeil (virt % pageSize + size) pageSize = 1 →
      prpAllocate virt phys size pageSize A = Except.ok (PrpContainer.one phys)) ∧
    (2 ≤ divCeil (virt % pageSize + size) pageSize → virt % pageSize ≠ 0 →
      prpAllocate virt phys size pageSize A =
        Except.error (Error.virtualAddressIsNotPageAligned virt)) ∧
    (∀ p2, divCeil (virt % pageSize + size) pageSize = 2 → virt % pageSize = 0 →
      A.translate (virt + pageSize) = some p2 →
      prpAllocate virt phys size pageSize A = Except.ok (PrpContainer.two phys p2)) ∧
    (∀ p2, 3 ≤ divCeil (virt % pageSize + size) pageSize → virt % pageSize = 0 →
      A.translate (virt + pageSize) = some p2 →
      ∃ lists, prpAllocate virt phys size pageSize A =
        Except.ok (PrpContainer.multiple phys lists) ∧
        lists.length =
          divCeil (divCeil (virt % pageSize + size) pageSize - 1) (pageSize / 8 - 1)) := by
  have h7 : virt &&& 7 = virt % 8 := by
    have h := Nat.and_pow_two_sub_one_eq_mod virt 3
    norm_num at h
    exact h
  have hmask : virt &&& (pageSize - 1) = virt % pageSize := by
    rw [hP]
    exact Nat.and_pow_two_sub_one_eq_mod virt k
  refine ⟨?_, ?_, ?_, ?_⟩
  · intro h1
    unfold prpAllocate
    rw [h7, hd, if_neg (by omega)]
    dsimp only
    rw [hmask, if_pos h1]
  · intro h2 hpa
    unfold prpAllocate
    rw [h7, hd, if_neg (by omega)]
    dsimp only
    rw [hmask, if_neg (by omega), if_pos hpa]
  · intro p2 h2 hpa htr
    unfold prpAllocate
    rw [h7, hd, if_neg (by omega)]
    dsimp only
    rw [hmask, if_neg (by omega), if_neg (by omega), htr]
    dsimp only
    rw [if_pos h2]
  · intro p2 h3 hpa htr
    have hPle : pageSize ≤ 2 ^ 28 := by
      rw [hP]
      exact Nat.pow_le_pow_right (by omega) hk28
    have hP16 : 16 ≤ pageSize := by
      rw [hP]
      calc (16 : Nat) = 2 ^ 4 := by norm_num
      _ ≤ 2 ^ k := Nat.pow_le_pow_right (by omega) hk4
    have e63 : (2 : Nat) ^ 63 = 9223372036854775808 := by norm_num
    have e28 : (2 : Nat) ^ 28 = 268435456 := by norm_num
    have eUS : USIZE = 18446744073709551616 := by norm_num [USIZE]
    have hspanle : divCeil (virt % pageSize + size) pageSize ≤
        virt % pageSize + size + pageSize - 1 := Nat.div_le_self _ _
    have hmod : virt % pageSize < pageSize := Nat.mod_lt _ (by omega)
    have hspanlt : divCeil (virt % pageSize + size) pageSize < USIZE := by
      rw [eUS]
      omega
    have heppge : 2 ≤ pageSize / 8 := by
      omega
    have hepplt : pageSize / 8 < USIZE := by
      have := Nat.div_le_self pageSize 8
      rw [eUS]
      omega
    unfold prpAllocate
    rw [h7, hd, if_neg (by omega)]
    dsimp only
    rw [hmask, if_neg (by omega), if_neg (by omega), htr]
    dsimp only
    rw [if_neg (by omega)]
    refine ⟨_, rfl, ?_⟩
    rw [List.length_map, List.length_range,
      usizeSub_eq_sub _ _ (by omega) hspanlt,
      usizeSub_eq_sub _ _ (by omega) hepplt]

/-- Witness for C7 at a three-page buffer on a 4 KiB page: one list page
is allocated, matching ceil((3 - 1) / 511) = 1. -/
theorem C7_prp_span_dispatch_witness :
    (4 ≤ 12) ∧ ((0 : Nat) % 8 = 0) ∧ (3 ≤ divCeil (0 % 4096 + 12288) 4096) ∧
    (match prpAllocate 0 0 12288 4096 ⟨fun v => some v, fun i => 2 ^ 21 + i * 4096⟩ with
     | Except.ok (PrpContainer.multiple _ lists) => some lists.length
     | _ => none) =
      some (divCeil (divCeil (0 % 4096 + 12288) 4096 - 1) (4096 / 8 - 1)) := by
  refine ⟨by decide, by decide, by decide, ?_⟩
  obtain ⟨ls, h1, h2⟩ :=
    (C7_prp_span_dispatch 0 0 12288 4096 12
      ⟨fun v => some v, fun i => 2 ^ 21 + i * 4096⟩
      (by norm_num) (by norm_num) (by norm_num) (by norm_num) (by norm_num)).2.2.2
      4096 (by norm_num [divCeil]) (by norm_num) rfl
  rw [h1]
  dsimp only
  rw [h2]

/-- Once the size check has passed, no later step of the write path can
produce BufferLengthBiggerThanMaximumTransferSize. -/
lemma ioWriteModel_no_mts_error (fuel : Nat) (s : IoQueuePairState)
    (virt phys size lba : Nat) (A : PrpAllocator)
    (h : size ≤ s.maximumTransferSize)
    (r : Except Error Unit) (st : IoQueuePairState) (db : List DoorbellWrite)
    (hw : ioWriteModel fuel s virt phys size lba A = some (r, st, db))
    (a b : Nat) :
    r ≠ Except.error (Error.bufferLengthBiggerThanMaximumTransferSize a b) := by
  unfold ioWriteModel at hw
  rw [if_neg (Nat.not_lt.mpr h)] at hw
  by_cases hbs : s.blockSize = 0
  · rw [if_pos hbs] at hw
    simp at hw
  · rw [if_neg hbs] at hw
    by_cases hmul : size % s.blockSize ≠ 0
    · rw [if_pos hmul] at hw
      simp only [Option.some.injEq, Prod.mk.injEq] at hw
      obtain ⟨rfl, -⟩ := hw
      intro hcontra
      simp at hcontra
    · rw [if_neg hmul] at hw
      cases hprp : prpAllocate virt phys size s.pageSize A with
      | error e =>
        rw [hprp] at hw
        dsimp only at hw
        simp only [Option.some.injEq, Prod.mk.injEq] at hw
        obtain ⟨rfl, -⟩ := hw
        intro hcontra
        injection hcontra with h1
        rcases prpAllocate_error_shapes virt phys size s.pageSize A e hprp with
          h2 | h2 | h2 <;> (subst h2; simp at h1)
      | ok container =>
        rw [hprp] at hw
        dsimp only [SubmissionQueue.submit] at hw
        cases hio : completeIoFuel fuel 1 s.completion with
        | none =>
          rw [hio] at hw
          simp at hw
        | some p =>
          obtain ⟨res, sqh, cq1, cqdb⟩ := p
          rw [hio] at hw
          dsimp only at hw
          rcases completeIoFuel_result_shapes fuel 1 s.completion res sqh cq1 cqdb hio with
            ⟨st2, rfl⟩ | ⟨v, rfl⟩
          · dsimp only at hw
            simp only [Option.some.injEq, Prod.mk.injEq] at hw
            obtain ⟨rfl, -⟩ := hw
            intro hcontra
            simp at hcontra
          · dsimp only at hw
            simp only [Option.some.injEq, Prod.mk.injEq] at hw
            obtain ⟨rfl, -⟩ := hw
            intro hcontra
            simp at hcontra

/-- Once the size check has passed, no later step of the read path can
produce BufferLengthBiggerThanMaximumTransferSize. -/
lemma ioReadModel_no_mts_error (fuel : Nat) (s : IoQueuePairState)
    (virt phys size lba : Nat) (A : PrpAllocator)
    (h : size ≤ s.maximumTransferSize)
    (r : Except Error Unit) (st : IoQueuePairState) (db : List DoorbellWrite)
    (hw : ioReadModel fuel s virt phys size lba A = some (r, st, db))
    (a b : Nat) :
    r ≠ Except.error (Error.bufferLengthBiggerThanMaximumTransferSize a b) := by
  unfold ioReadModel at hw
  rw [if_neg (Nat.not_lt.mpr h)] at hw
  by_cases hbs : s.blockSize = 0
  · rw [if_pos hbs] at hw
    simp at hw
  · rw [if_neg hbs] at hw
    by_cases hmul : size % s.blockSize ≠ 0
    · rw [if_pos hmul] at hw
      simp only [Option.some.injEq, Prod.mk.injEq] at hw
      obtain ⟨rfl, -⟩ := hw
      intro hcontra
      simp at hcontra
    · rw [if_neg hmul] at hw
      cases hprp : prpAllocate virt phys size s.pageSize A with
      | error e =>
        rw [hprp] at hw
        dsimp only at hw
        simp only [Option.some.injEq, Prod.mk.injEq] at hw
        obtain ⟨rfl, -⟩ := hw
        intro hcontra
        injection hcontra with h1
        rcases prpAllocate_error_shapes virt phys size s.pageSize A e hprp with
          h2 | h2 | h2 <;> (subst h2; simp at h1)
      | ok container =>
        rw [hprp] at hw
        dsimp only [SubmissionQueue.submit] at hw
        cases hio : completeIoFuel fuel 1 s.completion with
        | none =>
          rw [hio] at hw
          simp at hw
        | some p =>
          obtain ⟨res, sqh, cq1, cqdb⟩ := p
          rw [hio] at hw
          dsimp only at hw
          rcases completeIoFuel_result_shapes fuel 1 s.completion res sqh cq1 cqdb hio with
            ⟨st2, rfl⟩ | ⟨v, rfl⟩
          · dsimp only at hw
            simp only [Option.some.injEq, Prod.mk.injEq] at hw
            obtain ⟨rfl, -⟩ := hw
            intro hcontra
            simp at hcontra
          · dsimp only at hw
            simp only [Option.some.injEq, Prod.mk.injEq] at hw
            obtain ⟨rfl, -⟩ := hw
            intro hcontra
            simp at hcontra

/-- Claim C6, counterexample: on a queue pair whose namespace has block
size 0 (an unusable namespace, which create_io_queue_pair does not
reject), a 512-byte write passes the size check and then computes
512 mod 0; 512 is not a multiple of 0, so the claim demands
BufferLengthNotAMultipleOfNamespaceBlockSize, but the source instead
panics on the remainder by zero and no error value is ever produced
(the model yields none). -/
theorem C6_zero_block_size_write_no_error :
    ioWriteModel 1 ⟨⟨List.replicate 4 default, 0, 0, 4⟩,
        CompletionQueue.new (List.replicate 4 default), 4096, 4096, 1, 0⟩ 0 0 512 0
      ⟨fun v => some v, fun _ => 0⟩ = none ∧ (512 : Nat) % 0 ≠ 0 :=
  ⟨rfl, by omega⟩

/-- Claim C6 as amended: for every read or write call, a buffer length
above maximum_transfer_size fails with
BufferLengthBiggerThanMaximumTransferSize before any device
interaction (state unchanged, no doorbell written); a length within the
maximum never produces that error; and, provided the namespace block
size is non-zero, a length that is not a multiple of it fails with
BufferLengthNotAMultipleOfNamespaceBlockSize, again with no device
interaction. -/
theorem C6_rw_validation_guards (fuel : Nat) (s : IoQueuePairState)
    (virt phys size lba : Nat) (A : PrpAllocator) :
    (size > s.maximumTransferSize →
      ioWriteModel fuel s virt phys size lba A =
        some (Except.error (Error.bufferLengthBiggerThanMaximumTransferSize size
          s.maximumTransferSize), s, []) ∧
      ioReadModel fuel s virt phys size lba A =
        some (Except.error (Error.bufferLengthBiggerThanMaximumTransferSize size
          s.maximumTransferSize), s, [])) ∧
    (size ≤ s.maximumTransferSize →
      ∀ r st db a b,
        (ioWriteModel fuel s virt phys size lba A = some (r, st, db) ∨
         ioReadModel fuel s virt phys size lba A = some (r, st, db)) →
        r ≠ Except.error (Error.bufferLengthBiggerThanMaximumTransferSize a b)) ∧
    (0 < s.blockSize → size ≤ s.maximumTransferSize → size % s.blockSize ≠ 0 →
      ioWriteModel fuel s virt phys size lba A =
        some (Except.error (Error.bufferLengthNotAMultipleOfNamespaceBlockSize size
          s.blockSize), s, []) ∧
      ioReadModel fuel s virt phys size lba A =
        some (Except.error (Error.bufferLengthNotAMultipleOfNamespaceBlockSize size
          s.blockSize), s, [])) := by
  refine ⟨?_, ?_, ?_⟩
  · intro h1
    constructor
    · unfold ioWriteModel
      rw [if_pos h1]
    · unfold ioReadModel
      rw [if_pos h1]
  · intro h1 r st db a b hor
    rcases hor with hw | hw
    · exact ioWriteModel_no_mts_error fuel s virt phys size lba A h1 r st db hw a b
    · exact ioReadModel_no_mts_error fuel s virt phys size lba A h1 r st db hw a b
  · intro h0 h1 h2
    constructor
    · unfold ioWriteModel
      rw [if_neg (Nat.not_lt.mpr h1), if_neg (by omega), if_pos h2]
    · unfold ioReadModel
      rw [if_neg (Nat.not_lt.mpr h1), if_neg (by omega), if_pos h2]

/-- Witness for the amended C6: with a 4096-byte maximum transfer size
and 512-byte blocks, a 4097-byte request fails the size check on both
paths with the state unchanged and no doorbell written. -/
theorem C6_rw_validation_guards_witness :
    (4097 > (⟨⟨List.replicate 4 default, 0, 0, 4⟩,
        CompletionQueue.new (List.replicate 4 default), 4096, 4096, 1, 512⟩ :
        IoQueuePairState).maximumTransferSize) ∧
    (ioWriteModel 0 ⟨⟨List.replicate 4 default, 0, 0, 4⟩,
        CompletionQueue.new (List.replicate 4 default), 4096, 4096, 1, 512⟩ 0 0 4097 0
        ⟨fun v => some v, fun _ => 0⟩ =
      some (Except.error (Error.bufferLengthBiggerThanMaximumTransferSize 4097
        (⟨⟨List.replicate 4 default, 0, 0, 4⟩,
          CompletionQueue.new (List.replicate 4 default), 4096, 4096, 1, 512⟩ :
          IoQueuePairState).maximumTransferSize),
        ⟨⟨List.replicate 4 default, 0, 0, 4⟩,
          CompletionQueue.new (List.replicate 4 default), 4096, 4096, 1, 512⟩, []) ∧
     ioReadModel 0 ⟨⟨List.replicate 4 default, 0, 0, 4⟩,
        CompletionQueue.new (List.replicate 4 default), 4096, 4096, 1, 512⟩ 0 0 4097 0
        ⟨fun v => some v, fun _ => 0⟩ =
      some (Except.error (Error.bufferLengthBiggerThanMaximumTransferSize 4097
        (⟨⟨List.replicate 4 default, 0, 0, 4⟩,
          CompletionQueue.new (List.replicate 4 default), 4096, 4096, 1, 512⟩ :
          IoQueuePairState).maximumTransferSize),
        ⟨⟨List.replicate 4 default, 0, 0, 4⟩,
          CompletionQueue.new (List.replicate 4 default), 4096, 4096, 1, 512⟩, [])) :=
  ⟨by decide,
   (C6_rw_validation_guards 0 _ 0 0 4097 0 ⟨fun v => some v, fun _ => 0⟩).1 (by decide)⟩

end Vroom
